import Mathlib

/-!
Shallow embedding of `src/luigi/server.py` (the luigi scheduler's HTTP/RPC
transport layer) together with the configuration plumbing, static-file
handler, and process lifecycle wiring it contains.  The scheduler object
itself lives outside this file's source tree, so it is modelled abstractly
as an interface of named operations, exactly the way `server.py` consumes it
(`hasattr` / `getattr(...)(**arguments)`).
-/

/-- JSON values, as produced by `json.loads` at the transport boundary. -/
inductive Json where
  | null : Json
  | bool (b : Bool) : Json
  | num (n : Int) : Json
  | str (s : String) : Json
  | arr (elems : List Json) : Json
  | obj (fields : List (String × Json)) : Json

/-- Abstract scheduler object as seen from the transport: `hasattr` tells
whether a method name resolves to an attribute, `call` invokes the named
operation with keyword arguments (the fields of a JSON object), returning a
JSON result and the scheduler's next state. -/
structure Scheduler (σ : Type) where
  hasattr : String → Bool
  call : String → List (String × Json) → σ → Json × σ

/-- Outcome of a single tornado handler body: a written JSON response,
an explicit `send_error(code)`, or an exception escaping the handler. -/
inductive HandlerAction where
  | write (body : Json) : HandlerAction
  | sendError (code : Nat) : HandlerAction
  | raiseExc (msg : String) : HandlerAction

/-- Result of running a handler: the action taken, the scheduler state
afterwards, and the list of scheduler operations invoked (method name with
the keyword arguments it received). -/
structure HandlerOutcome (σ : Type) where
  action : HandlerAction
  state : σ
  invocations : List (String × List (String × Json))

/-- Embedding of `RPCHandler.get` (server.py lines 68-82).  `jsonLoads`
stands for the standard library's `json.loads`; `data` is the request's
optional `data` argument (`get_argument('data', default="\x7b\x7d")`). -/
def RPCHandler.get {σ : Type} (jsonLoads : String → Except String Json)
    (sched : Scheduler σ) (method : String) (data : Option String)
    (st : σ) : HandlerOutcome σ :=
  let payload := data.getD "{}"
  match jsonLoads payload with
  | Except.error e => ⟨HandlerAction.raiseExc ( "ValueError: " ++ e), st, []⟩
  | Except.ok arguments =>
    if sched.hasattr method then
      match arguments with
      | Json.obj fields =>
        let rs := sched.call method fields st
        ⟨HandlerAction.write (Json.obj [( "response", rs.1)]), rs.2,
          [(method, fields)]⟩
      | _ => ⟨HandlerAction.raiseExc "TypeError: argument after ** must be a mapping", st, []⟩
    else
      ⟨HandlerAction.sendError 404, st, []⟩

/-- Embedding of `post = get` (server.py line 82): POST is the very same
function object as GET. -/
def RPCHandler.post {σ : Type} : (String → Except String Json) →
    Scheduler σ → String → Option String → σ → HandlerOutcome σ :=
  RPCHandler.get

/-- HTTP-level result the caller observes once the framework has run the
handler body. -/
structure TransportResult where
  status : Nat
  body : Option Json
  processAlive : Bool

/-- Modelled from the spec: the tornado framework around the handler body
(not part of `server.py`) turns a written response into a 200, an explicit
`send_error(code)` into that error code, and an exception escaping the
handler into a structured 500 error response; caller errors are "reported
back to the caller as a structured failure, never crash the process". -/
def tornadoExecute (a : HandlerAction) : TransportResult :=
  match a with
  | HandlerAction.write j => ⟨200, some j, true⟩
  | HandlerAction.sendError c => ⟨c, none, true⟩
  | HandlerAction.raiseExc _ => ⟨500, none, true⟩

/-- Modelled from the spec: the external `configuration` module (not under
`server.py`'s tree) is a typed key-value store, keyed by (section, option);
each getter returns the stored value when the key is present and the
caller-supplied default otherwise. -/
structure Config where
  floats : List ((String × String) × Rat)
  ints : List ((String × String) × Int)
  strs : List ((String × String) × String)
  bools : List ((String × String) × Bool)
  intdicts : List (String × List (String × Int))

def Config.getfloat (c : Config) (sec key : String) (dflt : Rat) : Rat :=
  (c.floats.lookup (sec, key)).getD dflt

def Config.get (c : Config) (sec key : String) (dflt : String) : String :=
  (c.strs.lookup (sec, key)).getD dflt

/-- The default may be `None` in the source (`disable-num-failures`), so the
default and the result are both `Option Int`. -/
def Config.getint (c : Config) (sec key : String) (dflt : Option Int) : Option Int :=
  match c.ints.lookup (sec, key) with
  | some v => some v
  | none => dflt

def Config.getboolean (c : Config) (sec key : String) (dflt : Bool) : Bool :=
  (c.bools.lookup (sec, key)).getD dflt

def Config.getintdict (c : Config) (sec : String) : List (String × Int) :=
  (c.intdicts.lookup sec).getD []

/-- The two history-recorder variants `_create_scheduler` can inject:
`task_history.NopHistory()` or `db_task_history.DbTaskHistory()`. -/
inductive TaskHistory where
  | NopHistory : TaskHistory
  | DbTaskHistory : TaskHistory
  deriving DecidableEq

/-- Modelled from the spec: `scheduler.CentralPlannerScheduler` is outside
this source tree; at this boundary it is the record of the constructor
arguments `_create_scheduler` passes, in the source's positional order. -/
structure CentralPlannerScheduler where
  retry_delay : Rat
  remove_delay : Rat
  worker_disconnect_delay : Rat
  state_path : String
  task_history_impl : TaskHistory
  resources : List (String × Int)
  disable_persist : Option Int
  disable_window : Option Int
  disable_failures : Option Int
  max_shown_tasks : Option Int
  deriving DecidableEq

/-- Embedding of `_create_scheduler` (server.py lines 35-58). -/
def create_scheduler (config : Config) : CentralPlannerScheduler :=
  let retry_delay := config.getfloat "scheduler" "retry-delay" 900
  let remove_delay := config.getfloat "scheduler" "remove-delay" 600
  let worker_disconnect_delay := config.getfloat "scheduler" "worker-disconnect-delay" 60
  let state_path := config.get "scheduler" "state-path" "/var/lib/luigi-server/state.pickle"
  let disable_window := config.getint "scheduler" "disable-window-seconds" (some 3600)
  let disable_failures := config.getint "scheduler" "disable-num-failures" none
  let disable_persist := config.getint "scheduler" "disable-persist-seconds" (some 86400)
  let max_shown_tasks := config.getint "scheduler" "max-shown-tasks" (some 100000)
  let resources := config.getintdict "resources"
  let task_history_impl :=
    if config.getboolean "scheduler" "record_task_history" false then
      TaskHistory.DbTaskHistory
    else
      TaskHistory.NopHistory
  { retry_delay := retry_delay
    remove_delay := remove_delay
    worker_disconnect_delay := worker_disconnect_delay
    state_path := state_path
    task_history_impl := task_history_impl
    resources := resources
    disable_persist := disable_persist
    disable_window := disable_window
    disable_failures := disable_failures
    max_shown_tasks := max_shown_tasks }

/-- Split a character list on the slash character, mirroring Python's
`path.split('/')` (keeps empty components). -/
def splitOnSlash : List Char → List (List Char)
  | [] => [[]]
  | c :: cs =>
    let r := splitOnSlash cs
    if c = '/' then [] :: r
    else
      match r with
      | [] => [[c]]
      | h :: t => (c :: h) :: t

/-- Component loop of CPython's `posixpath.normpath`: drop empty and `.`
components; `..` pops the previous component unless at the start of a
relative path or on top of another `..`. -/
def normpathComps (initSlashes : Nat) (comps : List (List Char)) : List (List Char) :=
  comps.foldl
    (fun acc comp =>
      if comp = [] ∨ comp = ['.'] then acc
      else if comp ≠ ['.', '.'] ∨ (initSlashes = 0 ∧ acc = []) ∨
          (acc ≠ [] ∧ acc.getLast? = some ['.', '.']) then
        acc ++ [comp]
      else if acc ≠ [] then acc.dropLast
      else acc)
    []

/-- Join components with single slashes (`'/'.join(new_comps)`). -/
def joinSlash : List (List Char) → List Char
  | [] => []
  | [c] => c
  | c :: cs => c ++ '/' :: joinSlash cs

/-- Embedding of CPython's `posixpath.normpath` on character lists: POSIX
treats exactly two leading slashes specially, three or more as one. -/
def normpathList (cs : List Char) : List Char :=
  if cs = [] then ['.']
  else
    let initSlashes : Nat :=
      match cs with
      | '/' :: '/' :: '/' :: _ => 1
      | '/' :: '/' :: _ => 2
      | '/' :: _ => 1
      | _ => 0
    let res := List.replicate initSlashes '/' ++
      joinSlash (normpathComps initSlashes (splitOnSlash cs))
    if res = [] then ['.'] else res

/-- String-level `posixpath.normpath`. -/
def normpath (p : String) : String := ⟨normpathList p.data⟩

/-- Does the first list lead (start) the second? -/
def leadsWith : List Char → List Char → Bool
  | [], _ => true
  | _ :: _, [] => false
  | a :: as, b :: bs => a = b && leadsWith as bs

/-- Python's `str.startswith` on strings. -/
def startswith (s pat : String) : Bool := leadsWith pat.data s.data

/-- POSIX `os.path.isabs`: absolute iff the path begins with a slash. -/
def isabs (p : String) : Bool :=
  match p.data with
  | '/' :: _ => true
  | _ => false

/-- Index of the last occurrence of a character, accumulator form. -/
def rlastIdxAux (c : Char) : List Char → Nat → Option Nat → Option Nat
  | [], _, best => best
  | x :: xs, i, best => rlastIdxAux c xs (i + 1) (if x = c then some i else best)

/-- Embedding of CPython's `os.path.splitext` for POSIX paths
(`genericpath._splitext` with separator `'/'` and extension dot `'.'`):
the extension starts at the last dot after the last slash, unless the
file name consists only of dots. -/
def splitext (p : String) : String × String :=
  let cs := p.data
  let sepIndex : Int :=
    match rlastIdxAux '/' cs 0 none with
    | some i => (i : Int)
    | none => -1
  let dotIndex : Int :=
    match rlastIdxAux '.' cs 0 none with
    | some i => (i : Int)
    | none => -1
  if sepIndex < dotIndex then
    let filenameStart := (sepIndex + 1).toNat
    let middle := (cs.drop filenameStart).take (dotIndex.toNat - filenameStart)
    if middle.any (fun c => c ≠ '.') then
      (⟨cs.take dotIndex.toNat⟩, ⟨cs.drop dotIndex.toNat⟩)
    else (p, "")
  else (p, "")

/-- POSIX `os.path.join` for two components. -/
def posixpath_join (a b : String) : String :=
  if startswith b "/" then b
  else if a == "" || (match a.data.getLast? with | some '/' => true | _ => false) then a ++ b
  else a ++ "/" ++ b

/-- Action taken by the static-file handler body. -/
inductive StaticAction where
  | write (contentType : Option String) (data : String) : StaticAction
  | sendError (code : Nat) : StaticAction
  | raiseExc (msg : String) : StaticAction
  deriving DecidableEq

/-- Result of the static-file handler: the action plus every package
resource path it read. -/
structure StaticOutcome where
  action : StaticAction
  resourceReads : List String
  deriving DecidableEq

/-- Embedding of `StaticFileHandler.get` (server.py lines 124-137).
`typesMap` stands for `mimetypes.types_map`, `resources` for
`pkg_resources.resource_string` (`none` meaning the lookup raises). -/
def StaticFileHandler.get (typesMap : List (String × String))
    (resources : String → Option String) (path : String) : StaticOutcome :=
  let p := normpath path
  if isabs p || startswith p ".." then ⟨StaticAction.sendError 404, []⟩
  else
    let extension := (splitext p).2
    let contentType := typesMap.lookup extension
    let rp := posixpath_join "static" p
    match resources rp with
    | some d => ⟨StaticAction.write contentType d, [rp]⟩
    | none => ⟨StaticAction.raiseExc "IOError", [rp]⟩

/-- Signals `run` can register handlers for. -/
inductive Signal where
  | SIGINT | SIGTERM | SIGQUIT | SIGBREAK
  deriving DecidableEq

/-- Observable steps `run` performs, in order. -/
inductive RunEvent where
  | load : RunEvent
  | initApi : RunEvent
  | prunerCreate (periodMs : Nat) : RunEvent
  | prunerStart : RunEvent
  | registerSignal (s : Signal) : RunEvent
  | registerAtexit : RunEvent
  | ioloopStart : RunEvent
  deriving DecidableEq

/-- Embedding of `run` (server.py lines 172-199) as its ordered trace of
effects: load scheduler state, bind the API, create and start the 60000 ms
pruner timer, register `shutdown_handler` for SIGINT, SIGTERM, then SIGBREAK
on Windows (`os.name == 'nt'`) or SIGQUIT elsewhere, register it with
`atexit`, and finally start the IO loop.  Every `registerSignal` and the
`registerAtexit` event registers `shutdown_handler`. -/
def run (osName : String) : List RunEvent :=
  [RunEvent.load, RunEvent.initApi, RunEvent.prunerCreate 60000, RunEvent.prunerStart,
    RunEvent.registerSignal Signal.SIGINT, RunEvent.registerSignal Signal.SIGTERM] ++
  (if osName = "nt" then [RunEvent.registerSignal Signal.SIGBREAK]
    else [RunEvent.registerSignal Signal.SIGQUIT]) ++
  [RunEvent.registerAtexit, RunEvent.ioloopStart]

/-- A way the process can be asked to shut down. -/
inductive ShutdownPath where
  | signal (s : Signal) : ShutdownPath
  | atexitHook : ShutdownPath
  deriving DecidableEq

/-- The shutdown paths on which `run` installed `shutdown_handler`, read off
its trace. -/
def shutdownRegistrations (osName : String) : List ShutdownPath :=
  (run osName).filterMap
    (fun e =>
      match e with
      | RunEvent.registerSignal s => some (ShutdownPath.signal s)
      | RunEvent.registerAtexit => some ShutdownPath.atexitHook
      | _ => none)

/-- Whether the scheduler's state dump succeeds. -/
inductive DumpOutcome where
  | success : DumpOutcome
  | failure (msg : String) : DumpOutcome
  deriving DecidableEq

/-- Modelled from the spec: `sched.dump()` is outside this source tree;
per §4.5 a failed dump is logged and does not raise ("a failed dump is
logged and does not block shutdown"), so it returns its log lines. -/
def sched_dump : DumpOutcome → List String
  | DumpOutcome.success => []
  | DumpOutcome.failure m => [ "Failed to dump state: " ++ m]

/-- What a run of `shutdown_handler` did. -/
structure ShutdownResult where
  logs : List String
  dumpInvoked : Bool
  exitCode : Option Nat
  deriving DecidableEq

/-- Embedding of `shutdown_handler` (server.py lines 184-187): log, dump
the scheduler state, then `os._exit(0)`. -/
def shutdown_handler (outcome : DumpOutcome) : ShutdownResult :=
  { logs := "Scheduler instance shutting down" :: sched_dump outcome
    dumpInvoked := true
    exitCode := some 0 }

/-- Concrete stand-in for `json.loads`, used to instantiate theorems:
parses the empty object and one array literal, rejects everything else. -/
def jl0 : String → Except String Json :=
  fun s =>
    if s = "{}" then Except.ok (Json.obj [])
    else if s = "[1]" then Except.ok (Json.arr [Json.num 1])
    else Except.error "No JSON object could be decoded"

/-- Concrete scheduler object with a single attribute `ping` and a counter
state, used to instantiate theorems. -/
def sched0 : Scheduler Nat :=
  ⟨fun m => m == "ping", fun m _ s => (Json.str m, s + 1)⟩

/-- Configuration with no keys set at all. -/
def cfg0 : Config := ⟨[], [], [], [], []⟩

/-- Configuration with every key `_create_scheduler` reads explicitly set. -/
def cfg1 : Config :=
  { floats := [(( "scheduler", "retry-delay"), 5), (( "scheduler", "remove-delay"), 6),
      (( "scheduler", "worker-disconnect-delay"), 7)]
    ints := [(( "scheduler", "disable-window-seconds"), 7200),
      (( "scheduler", "disable-num-failures"), 3),
      (( "scheduler", "disable-persist-seconds"), 100),
      (( "scheduler", "max-shown-tasks"), 10)]
    strs := [(( "scheduler", "state-path"), "/tmp/state.pickle")]
    bools := [(( "scheduler", "record_task_history"), true)]
    intdicts := [( "resources", [( "gpu", 2)])] }

example :
    RPCHandler.get jl0 sched0 "ping" none 0
    = ⟨HandlerAction.write (Json.obj [( "response", Json.str "ping")]), 1, [( "ping", [])]⟩ := by
  rfl

example : normpath "a/b/../c//./d" = "a/c/d" := by rfl

example : normpath "//a/b" = "//a/b" := by rfl

example : normpath "..//x" = "../x" := by rfl

example : splitext "visualiser/index.html" = ("visualiser/index", ".html") := by rfl

example : splitext "a/.hidden" = ("a/.hidden", "") := by rfl

/-- Position of the first event satisfying the given event equality in a
run trace. -/
def eventPos (e : RunEvent) (l : List RunEvent) : Nat :=
  l.findIdx (fun x => x == e)

/-- C1: for an RPC request to `/api/<method>` whose method names an existing
scheduler operation, the handler decodes the `data` argument as a JSON
object (the argument defaults to the empty-object text when absent), invokes
exactly one scheduler operation with those JSON fields as keyword arguments,
and writes the return value wrapped as an object with single key
`response`. -/
theorem rpc_get_dispatches_single_operation {σ : Type}
    (jsonLoads : String → Except String Json) (sched : Scheduler σ)
    (method : String) (data : Option String) (st : σ)
    (fields : List (String × Json))
    (hparse : jsonLoads (data.getD "{}") = Except.ok (Json.obj fields))
    (hattr : sched.hasattr method = true) :
    RPCHandler.get jsonLoads sched method data st =
      ⟨HandlerAction.write (Json.obj [( "response", (sched.call method fields st).1)]),
        (sched.call method fields st).2, [(method, fields)]⟩ ∧
    (RPCHandler.get jsonLoads sched method data st).invocations.length = 1 := by
  have h : RPCHandler.get jsonLoads sched method data st =
      ⟨HandlerAction.write (Json.obj [( "response", (sched.call method fields st).1)]),
        (sched.call method fields st).2, [(method, fields)]⟩ := by
    simp only [RPCHandler.get, hparse, hattr]
    simp
  exact ⟨h, by rw [h]; rfl⟩

/-- Witness for C1 at a concrete parser, scheduler and request. -/
theorem rpc_get_dispatches_single_operation_witness :
    RPCHandler.get jl0 sched0 "ping" none 0 =
      ⟨HandlerAction.write (Json.obj [( "response", Json.str "ping")]), 1, [( "ping", [])]⟩ :=
  (rpc_get_dispatches_single_operation jl0 sched0 "ping" none 0 [] (by rfl) (by rfl)).1

/-- C2 counterexample: with an unknown method name but a malformed `data`
argument, the handler does not return 404 — `json.loads` is evaluated
before the `hasattr` check, so the parse exception escapes instead. -/
theorem rpc_get_unknown_method_404_counterexample :
    sched0.hasattr "frobnicate" = false ∧
    (RPCHandler.get jl0 sched0 "frobnicate" (some "!!") 0).action =
      HandlerAction.raiseExc "ValueError: No JSON object could be decoded" ∧
    (RPCHandler.get jl0 sched0 "frobnicate" (some "!!") 0).action ≠
      HandlerAction.sendError 404 := by
  refine ⟨rfl, rfl, ?_⟩
  intro h
  simp [RPCHandler.get, jl0] at h

/-- C2 amended: for a request whose `data` argument parses as JSON and whose
method is not an attribute of the scheduler, the handler sends a 404 error;
regardless of the payload, an unknown method never causes a scheduler
operation to be invoked and leaves the scheduler state unchanged. -/
theorem rpc_get_unknown_method_404 {σ : Type}
    (jsonLoads : String → Except String Json) (sched : Scheduler σ)
    (method : String) (data : Option String) (st : σ)
    (hattr : sched.hasattr method = false) :
    (∀ j, jsonLoads (data.getD "{}") = Except.ok j →
      RPCHandler.get jsonLoads sched method data st =
        ⟨HandlerAction.sendError 404, st, []⟩) ∧
    (RPCHandler.get jsonLoads sched method data st).invocations = [] ∧
    (RPCHandler.get jsonLoads sched method data st).state = st := by
  refine ⟨?_, ?_, ?_⟩
  · intro j hj
    simp only [RPCHandler.get, hj, hattr]
    rfl
  · cases hjl : jsonLoads (data.getD "{}") <;>
      simp [RPCHandler.get, hjl, hattr]
  · cases hjl : jsonLoads (data.getD "{}") <;>
      simp [RPCHandler.get, hjl, hattr]

/-- Witness for the amended C2 at a concrete request. -/
theorem rpc_get_unknown_method_404_witness :
    RPCHandler.get jl0 sched0 "frobnicate" (some "{}") 0 =
      ⟨HandlerAction.sendError 404, 0, []⟩ :=
  (rpc_get_unknown_method_404 jl0 sched0 "frobnicate" (some "{}") 0 rfl).1
    (Json.obj []) rfl

/-- C3: when the `data` argument is not valid JSON, the handler raises,
invoking no scheduler operation and leaving the state unchanged, and the
transport turns the exception into a structured 500 error response with the
process still alive. -/
theorem rpc_malformed_data_structured_failure {σ : Type}
    (jsonLoads : String → Except String Json) (sched : Scheduler σ)
    (method : String) (data : Option String) (st : σ) (e : String)
    (hparse : jsonLoads (data.getD "{}") = Except.error e) :
    tornadoExecute (RPCHandler.get jsonLoads sched method data st).action =
      ⟨500, none, true⟩ ∧
    (RPCHandler.get jsonLoads sched method data st).invocations = [] ∧
    (RPCHandler.get jsonLoads sched method data st).state = st := by
  have h : RPCHandler.get jsonLoads sched method data st =
      ⟨HandlerAction.raiseExc ( "ValueError: " ++ e), st, []⟩ := by
    simp only [RPCHandler.get, hparse]
  exact ⟨by rw [h]; rfl, by rw [h], by rw [h]⟩

/-- Witness for C3 at a concrete malformed payload. -/
theorem rpc_malformed_data_structured_failure_witness :
    tornadoExecute (RPCHandler.get jl0 sched0 "ping" (some "!!") 0).action =
      ⟨500, none, true⟩ ∧
    (RPCHandler.get jl0 sched0 "ping" (some "!!") 0).invocations = [] :=
  ⟨(rpc_malformed_data_structured_failure jl0 sched0 "ping" (some "!!") 0
      "No JSON object could be decoded" rfl).1,
   (rpc_malformed_data_structured_failure jl0 sched0 "ping" (some "!!") 0
      "No JSON object could be decoded" rfl).2.1⟩

/-- C4: `run` installs `shutdown_handler` on SIGINT, SIGTERM, SIGBREAK on
Windows and SIGQUIT elsewhere, and at interpreter exit; the handler always
invokes the scheduler's dump and exits the process with status 0, and a
failed dump is logged rather than blocking the exit. -/
theorem run_shutdown_paths_dump_then_exit (osName : String)
    (outcome : DumpOutcome) :
    ShutdownPath.signal Signal.SIGINT ∈ shutdownRegistrations osName ∧
    ShutdownPath.signal Signal.SIGTERM ∈ shutdownRegistrations osName ∧
    ShutdownPath.signal (if osName = "nt" then Signal.SIGBREAK else Signal.SIGQUIT) ∈
      shutdownRegistrations osName ∧
    ShutdownPath.atexitHook ∈ shutdownRegistrations osName ∧
    (shutdown_handler outcome).dumpInvoked = true ∧
    (shutdown_handler outcome).exitCode = some 0 ∧
    ∀ m, outcome = DumpOutcome.failure m →
      ( "Failed to dump state: " ++ m) ∈ (shutdown_handler outcome).logs := by
  have hlog : ∀ m, outcome = DumpOutcome.failure m →
      ( "Failed to dump state: " ++ m) ∈ (shutdown_handler outcome).logs := by
    intro m hm
    subst hm
    simp [shutdown_handler, sched_dump]
  by_cases h : osName = "nt"
  · subst h
    exact ⟨by decide, by decide, by decide, by decide, rfl, rfl, hlog⟩
  · refine ⟨?_, ?_, ?_, ?_, rfl, rfl, hlog⟩ <;>
      simp [shutdownRegistrations, run, h]

/-- Witness for C4 on a POSIX system with a failing dump. -/
theorem run_shutdown_paths_dump_then_exit_witness :
    (shutdown_handler (DumpOutcome.failure "disk full")).exitCode = some 0 ∧
    (shutdown_handler (DumpOutcome.failure "disk full")).dumpInvoked = true ∧
    ( "Failed to dump state: disk full") ∈
      (shutdown_handler (DumpOutcome.failure "disk full")).logs ∧
    ShutdownPath.signal Signal.SIGQUIT ∈ shutdownRegistrations "posix" :=
  ⟨(run_shutdown_paths_dump_then_exit "posix" (DumpOutcome.failure "disk full")).2.2.2.2.2.1,
   (run_shutdown_paths_dump_then_exit "posix" (DumpOutcome.failure "disk full")).2.2.2.2.1,
   (run_shutdown_paths_dump_then_exit "posix" (DumpOutcome.failure "disk full")).2.2.2.2.2.2
     "disk full" rfl,
   by
    have h := (run_shutdown_paths_dump_then_exit "posix" (DumpOutcome.failure "disk full")).2.2.1
    simpa using h⟩

/-- C5: `run` performs the scheduler load exactly once, before the API is
bound and before the IO loop starts handling requests, and creates and
starts the 60000 ms (60 second) periodic pruner timer before entering the
event loop. -/
theorem run_loads_once_then_pruner_timer (osName : String) :
    ((run osName).filter (fun e => e == RunEvent.load)).length = 1 ∧
    eventPos RunEvent.load (run osName) < eventPos RunEvent.initApi (run osName) ∧
    RunEvent.prunerCreate 60000 ∈ run osName ∧
    eventPos (RunEvent.prunerCreate 60000) (run osName) <
      eventPos RunEvent.ioloopStart (run osName) ∧
    eventPos RunEvent.prunerStart (run osName) <
      eventPos RunEvent.ioloopStart (run osName) ∧
    eventPos RunEvent.initApi (run osName) <
      eventPos RunEvent.ioloopStart (run osName) := by
  by_cases h : osName = "nt"
  · subst h
    refine ⟨by decide, by decide, by decide, by decide, by decide, by decide⟩
  · simp only [run, if_neg h]
    refine ⟨by decide, by decide, by decide, by decide, by decide, by decide⟩

/-- C6: when `disable-num-failures` is absent from configuration,
`_create_scheduler` passes `None` as the disable-failures threshold to the
scheduler constructor; when present, the configured integer is passed. -/
theorem create_scheduler_disable_failures (c : Config) :
    (c.ints.lookup ( "scheduler", "disable-num-failures") = none →
      (create_scheduler c).disable_failures = none) ∧
    ∀ n : Int, c.ints.lookup ( "scheduler", "disable-num-failures") = some n →
      (create_scheduler c).disable_failures = some n := by
  constructor
  · intro h
    simp [create_scheduler, Config.getint, h]
  · intro n h
    simp [create_scheduler, Config.getint, h]

/-- Witness for C6: the empty configuration yields `none`, a configured
threshold of 3 is passed through. -/
theorem create_scheduler_disable_failures_witness :
    (create_scheduler cfg0).disable_failures = none ∧
    (create_scheduler cfg1).disable_failures = some 3 :=
  ⟨(create_scheduler_disable_failures cfg0).1 rfl,
   (create_scheduler_disable_failures cfg1).2 3 (by rfl)⟩

/-- C7: `_create_scheduler` injects exactly one of the two history-recorder
variants when it constructs the scheduler: the DB-backed recorder exactly
when the `record_task_history` flag is configured true, the no-op recorder
when the flag is false or absent. -/
theorem create_scheduler_history_variant (c : Config) :
    (create_scheduler c).task_history_impl =
      (if Config.getboolean c "scheduler" "record_task_history" false then
        TaskHistory.DbTaskHistory
      else TaskHistory.NopHistory) ∧
    ((create_scheduler c).task_history_impl = TaskHistory.DbTaskHistory ↔
      c.bools.lookup ( "scheduler", "record_task_history") = some true) := by
  constructor
  · simp [create_scheduler]
  · cases hlook : c.bools.lookup ( "scheduler", "record_task_history") with
    | none => simp [create_scheduler, Config.getboolean, hlook]
    | some b => cases b <;> simp [create_scheduler, Config.getboolean, hlook]

/-- C8: `_create_scheduler` reads every configuration input the core
consumes and passes each to the scheduler constructor, substituting its
built-in default for any key that is absent: retry-delay 900.0,
remove-delay 600.0, worker-disconnect-delay 60.0, disable-window 3600,
disable-failures None, disable-persist 86400, max-shown-tasks 100000, the
resource capacity mapping (empty), and the state-file location
`/var/lib/luigi-server/state.pickle`. -/
theorem create_scheduler_reads_full_config (c : Config) :
    ((c.floats.lookup ( "scheduler", "retry-delay") = none →
        (create_scheduler c).retry_delay = 900) ∧
      ∀ r, c.floats.lookup ( "scheduler", "retry-delay") = some r →
        (create_scheduler c).retry_delay = r) ∧
    ((c.floats.lookup ( "scheduler", "remove-delay") = none →
        (create_scheduler c).remove_delay = 600) ∧
      ∀ r, c.floats.lookup ( "scheduler", "remove-delay") = some r →
        (create_scheduler c).remove_delay = r) ∧
    ((c.floats.lookup ( "scheduler", "worker-disconnect-delay") = none →
        (create_scheduler c).worker_disconnect_delay = 60) ∧
      ∀ r, c.floats.lookup ( "scheduler", "worker-disconnect-delay") = some r →
        (create_scheduler c).worker_disconnect_delay = r) ∧
    ((c.strs.lookup ( "scheduler", "state-path") = none →
        (create_scheduler c).state_path = "/var/lib/luigi-server/state.pickle") ∧
      ∀ s, c.strs.lookup ( "scheduler", "state-path") = some s →
        (create_scheduler c).state_path = s) ∧
    ((c.ints.lookup ( "scheduler", "disable-window-seconds") = none →
        (create_scheduler c).disable_window = some 3600) ∧
      ∀ n, c.ints.lookup ( "scheduler", "disable-window-seconds") = some n →
        (create_scheduler c).disable_window = some n) ∧
    ((c.ints.lookup ( "scheduler", "disable-num-failures") = none →
        (create_scheduler c).disable_failures = none) ∧
      ∀ n, c.ints.lookup ( "scheduler", "disable-num-failures") = some n →
        (create_scheduler c).disable_failures = some n) ∧
    ((c.ints.lookup ( "scheduler", "disable-persist-seconds") = none →
        (create_scheduler c).disable_persist = some 86400) ∧
      ∀ n, c.ints.lookup ( "scheduler", "disable-persist-seconds") = some n →
        (create_scheduler c).disable_persist = some n) ∧
    ((c.ints.lookup ( "scheduler", "max-shown-tasks") = none →
        (create_scheduler c).max_shown_tasks = some 100000) ∧
      ∀ n, c.ints.lookup ( "scheduler", "max-shown-tasks") = some n →
        (create_scheduler c).max_shown_tasks = some n) ∧
    ((c.intdicts.lookup "resources" = none →
        (create_scheduler c).resources = []) ∧
      ∀ m, c.intdicts.lookup "resources" = some m →
        (create_scheduler c).resources = m) := by
  refine ⟨⟨?_, ?_⟩, ⟨?_, ?_⟩, ⟨?_, ?_⟩, ⟨?_, ?_⟩, ⟨?_, ?_⟩, ⟨?_, ?_⟩, ⟨?_, ?_⟩,
    ⟨?_, ?_⟩, ⟨?_, ?_⟩⟩ <;>
    first
      | (intro h;
          simp [create_scheduler, Config.getfloat, Config.get, Config.getint,
            Config.getintdict, h])
      | (intro x h;
          simp [create_scheduler, Config.getfloat, Config.get, Config.getint,
            Config.getintdict, h])

/-- Witness for C8: all defaults on the empty configuration, and
pass-through of every configured value on a full configuration. -/
theorem create_scheduler_reads_full_config_witness :
    ((create_scheduler cfg0).retry_delay = 900 ∧
      (create_scheduler cfg0).remove_delay = 600 ∧
      (create_scheduler cfg0).worker_disconnect_delay = 60 ∧
      (create_scheduler cfg0).state_path = "/var/lib/luigi-server/state.pickle" ∧
      (create_scheduler cfg0).disable_window = some 3600 ∧
      (create_scheduler cfg0).disable_failures = none ∧
      (create_scheduler cfg0).disable_persist = some 86400 ∧
      (create_scheduler cfg0).max_shown_tasks = some 100000 ∧
      (create_scheduler cfg0).resources = []) ∧
    ((create_scheduler cfg1).retry_delay = 5 ∧
      (create_scheduler cfg1).remove_delay = 6 ∧
      (create_scheduler cfg1).worker_disconnect_delay = 7 ∧
      (create_scheduler cfg1).state_path = "/tmp/state.pickle" ∧
      (create_scheduler cfg1).disable_window = some 7200 ∧
      (create_scheduler cfg1).disable_failures = some 3 ∧
      (create_scheduler cfg1).disable_persist = some 100 ∧
      (create_scheduler cfg1).max_shown_tasks = some 10 ∧
      (create_scheduler cfg1).resources = [( "gpu", 2)]) :=
  ⟨⟨(create_scheduler_reads_full_config cfg0).1.1 rfl,
    (create_scheduler_reads_full_config cfg0).2.1.1 rfl,
    (create_scheduler_reads_full_config cfg0).2.2.1.1 rfl,
    (create_scheduler_reads_full_config cfg0).2.2.2.1.1 rfl,
    (create_scheduler_reads_full_config cfg0).2.2.2.2.1.1 rfl,
    (create_scheduler_reads_full_config cfg0).2.2.2.2.2.1.1 rfl,
    (create_scheduler_reads_full_config cfg0).2.2.2.2.2.2.1.1 rfl,
    (create_scheduler_reads_full_config cfg0).2.2.2.2.2.2.2.1.1 rfl,
    (create_scheduler_reads_full_config cfg0).2.2.2.2.2.2.2.2.1 rfl⟩,
   ⟨(create_scheduler_reads_full_config cfg1).1.2 5 (by rfl),
    (create_scheduler_reads_full_config cfg1).2.1.2 6 (by rfl),
    (create_scheduler_reads_full_config cfg1).2.2.1.2 7 (by rfl),
    (create_scheduler_reads_full_config cfg1).2.2.2.1.2 "/tmp/state.pickle" (by rfl),
    (create_scheduler_reads_full_config cfg1).2.2.2.2.1.2 7200 (by rfl),
    (create_scheduler_reads_full_config cfg1).2.2.2.2.2.1.2 3 (by rfl),
    (create_scheduler_reads_full_config cfg1).2.2.2.2.2.2.1.2 100 (by rfl),
    (create_scheduler_reads_full_config cfg1).2.2.2.2.2.2.2.1.2 10 (by rfl),
    (create_scheduler_reads_full_config cfg1).2.2.2.2.2.2.2.2.2 [( "gpu", 2)] (by rfl)⟩⟩

/-- C9: a static-file request whose path, after posixpath normalization, is
absolute or begins with `..` is answered with a 404 error and reads no
package resource. -/
theorem static_get_rejects_traversal (typesMap : List (String × String))
    (resources : String → Option String) (path : String)
    (h : isabs (normpath path) = true ∨ startswith (normpath path) ".." = true) :
    StaticFileHandler.get typesMap resources path =
      ⟨StaticAction.sendError 404, []⟩ := by
  unfold StaticFileHandler.get
  rcases h with h | h <;> simp [h]

/-- Witness for C9 on an absolute path and on a traversal path. -/
theorem static_get_rejects_traversal_witness :
    StaticFileHandler.get [] (fun _ => none) "/etc/passwd" =
      ⟨StaticAction.sendError 404, []⟩ ∧
    StaticFileHandler.get [] (fun _ => none) "a/../../b" =
      ⟨StaticAction.sendError 404, []⟩ :=
  ⟨static_get_rejects_traversal [] (fun _ => none) "/etc/passwd" (Or.inl (by rfl)),
   static_get_rejects_traversal [] (fun _ => none) "a/../../b" (Or.inr (by rfl))⟩

/-- C10: POST on the RPC endpoint is handled by the identical function as
GET, so the same method name, `data` argument and scheduler state produce
the same response, the same next state, and the same invocations. -/
theorem rpc_post_equals_get {σ : Type}
    (jsonLoads : String → Except String Json) (sched : Scheduler σ)
    (method : String) (data : Option String) (st : σ) :
    RPCHandler.post jsonLoads sched method data st =
      RPCHandler.get jsonLoads sched method data st := rfl
